import Mathlib

/-!
Shallow embedding of the redux-translations language-switch middleware
(src/index.ts).

The middleware's mutable module state `__state` is embedded as the
structure `IState`; the synchronous body of the middleware closure
(`store => next => action => ...`) is embedded as the function `handle`,
which returns the successor state together with the ordered list of
observable effects (callback invocations, loader calls, subscriber
notifications, forwarding to `next`) and the list of promise
continuations registered by the call.  The two `.then` continuation
bodies in the source are embedded as `resolveSwitchLoad` (the cache-miss
load, lines 157-176) and `resolveRefreshLoad` (the background cache
refresh, lines 144-148); they are separate functions because the runtime
runs them later, against whatever state holds at resolution time.
A thrown `Error` is embedded as `Except.error`: the source throws before
any mutation, callback, loader call or `next` call, so the error result
carries no successor state and no effects.

`patchState` and seeding from an initial-state snapshot appear in the
later revision of src/index.ts and are embedded from that revision
(`Object.entries(changes).forEach(([k, v]) => (__state[k] = v))` and
`__state[key] = initialState[key] || defaultState[key]`).
-/

namespace ReduxTranslations

/-- Source: `const switchLangActionType = 'REDUX_TRANSLATIONS_SWITCH_LANG'`. -/
def switchLangActionType : String := "REDUX_TRANSLATIONS_SWITCH_LANG"

/-- A JS action payload: either a string, or some non-string value (its
identity is irrelevant to the middleware, which only checks
`typeof switchingLang !== 'string'`). -/
inductive Payload where
  | str (s : String) : Payload
  | nonString : Payload
deriving DecidableEq

/-- An FSA action `{ type, payload }`. -/
structure Action where
  type : String
  payload : Payload
deriving DecidableEq

/-- The middleware's inner state `__state` (source `IState<D>`):
`dictionaries` is the hash-table of loaded dictionaries, `currentLang`
the active language, `loadingLang` the language being fetched. -/
structure IState (D : Type) where
  dictionaries : String → Option D
  currentLang : Option String
  loadingLang : Option String

/-- The options object after merging with `defaultOptions`.  The two
callback fields record only whether a callback function is configured
(`typeof options.xxxCallback === 'function'`); the callbacks' own
behavior is external to the middleware. -/
structure MOptions where
  cache : Bool
  updateCacheOnSwitch : Bool
  startSwitchCallback : Bool
  endSwitchCallback : Bool
deriving DecidableEq

/-- Source `defaultOptions`: `{ cache: true, updateCacheOnSwitch: false }`,
no callbacks configured. -/
def defaultOptions : MOptions :=
  { cache := true, updateCacheOnSwitch := false,
    startSwitchCallback := false, endSwitchCallback := false }

/-- Observable effects of one middleware call, in program order:
invoking `options.startSwitchCallback(lang, store)`, invoking
`options.endSwitchCallback(lang, dictionary, store)`, invoking the
caller-supplied loader `requestFunc(lang)`, running
`updateTranslatedComponents()` (notify all subscribed components), and
forwarding the action to `next`. -/
inductive MEvent (D : Type) where
  | startSwitchCallback (lang : String) : MEvent D
  | endSwitchCallback (lang : String) (dict : D) : MEvent D
  | requestDictionary (lang : String) : MEvent D
  | updateComponents : MEvent D
  | nextAction (a : Action) : MEvent D
deriving DecidableEq

/-- A promise continuation registered by a middleware call: either the
`.then` of a cache-miss load (source lines 157-176) or the `.then` of a
background cache refresh (source lines 144-148), each remembering the
language it was issued for. -/
inductive PendingLoad where
  | switchLoad (lang : String) : PendingLoad
  | refresh (lang : String) : PendingLoad
deriving DecidableEq

/-- Result of the synchronous portion of one middleware call. -/
structure HandleResult (D : Type) where
  state : IState D
  events : List (MEvent D)
  pending : List PendingLoad

/-- `__state.dictionaries[lang] = d` (assignment into the hash-table). -/
def setDict {D : Type} (m : String → Option D) (lang : String) (d : D) :
    String → Option D :=
  fun l => if l = lang then some d else m l

/-- The events contributed by the `startSwitchCallback` check
(source lines 123-125). -/
def startEvents {D : Type} (options : MOptions) (lang : String) : List (MEvent D) :=
  if options.startSwitchCallback then [MEvent.startSwitchCallback lang] else []

/-- The synchronous body of the middleware (source lines 107-181).

Branches, in source order: non-matching action type falls through to
`next`; a non-string payload throws; a payload equal to `currentLang`
just forwards to `next`; otherwise `startSwitchCallback` fires, then the
hit test `__state.dictionaries[switchingLang] && options.cache` picks
the cache-hit branch (set `currentLang`, clear `loadingLang`, fire
`endSwitchCallback` with the cached dictionary, optionally issue a
background refresh) or the cache-miss branch (set `loadingLang`, issue
the load); both branches then notify subscribers and forward to `next`. -/
def handle {D : Type} (options : MOptions) (st : IState D) (action : Action) :
    Except String (HandleResult D) :=
  if action.type = switchLangActionType then
    match action.payload with
    | Payload.nonString =>
        Except.error ("switchLangActionCreator and switchLang property " ++
          "should be called with argument typeof string.")
    | Payload.str switchingLang =>
        if some switchingLang = st.currentLang then
          Except.ok ⟨st, [MEvent.nextAction action], []⟩
        else
          if (st.dictionaries switchingLang).isSome && options.cache then
            let st2 : IState D :=
              { st with currentLang := some switchingLang, loadingLang := none }
            Except.ok ⟨st2,
              startEvents options switchingLang
                ++ (if options.endSwitchCallback then
                      match st2.dictionaries switchingLang with
                      | some d => [MEvent.endSwitchCallback switchingLang d]
                      | none => []   -- unreachable: the hit test guarantees presence
                    else [])
                ++ (if options.updateCacheOnSwitch then
                      [MEvent.requestDictionary switchingLang]
                    else [])
                ++ [MEvent.updateComponents, MEvent.nextAction action],
              if options.updateCacheOnSwitch then [PendingLoad.refresh switchingLang]
              else []⟩
          else
            Except.ok ⟨{ st with loadingLang := some switchingLang },
              startEvents options switchingLang
                ++ [MEvent.requestDictionary switchingLang, MEvent.updateComponents,
                    MEvent.nextAction action],
              [PendingLoad.switchLoad switchingLang]⟩
  else
    Except.ok ⟨st, [MEvent.nextAction action], []⟩

/-- The `.then` continuation of a cache-miss load (source lines 157-176):
store the resolved dictionary, then apply the switch only if
`__state.loadingLang === switchingLang` still holds at resolution time. -/
def resolveSwitchLoad {D : Type} (options : MOptions) (st : IState D)
    (switchingLang : String) (dictionary : D) : IState D × List (MEvent D) :=
  let st1 : IState D :=
    { st with dictionaries := setDict st.dictionaries switchingLang dictionary }
  if st1.loadingLang = some switchingLang then
    ({ st1 with currentLang := some switchingLang, loadingLang := none },
      (if options.endSwitchCallback then
         [MEvent.endSwitchCallback switchingLang dictionary]
       else [])
        ++ [MEvent.updateComponents])
  else
    (st1, [])

/-- The `.then` continuation of a background cache refresh (source lines
144-148): overwrite the cache entry and notify subscribers, touching
nothing else. -/
def resolveRefreshLoad {D : Type} (st : IState D) (switchingLang : String)
    (dictionary : D) : IState D × List (MEvent D) :=
  ({ st with dictionaries := setDict st.dictionaries switchingLang dictionary },
    [MEvent.updateComponents])

/-- The state installed by `createTranslationsMiddleware` (source lines
95-99): empty dictionaries, no current and no loading language. -/
def initialState (D : Type) : IState D :=
  { dictionaries := fun _ => none, currentLang := none, loadingLang := none }

/-- A partial inner-state object (`Partial<IState<D>>`): each field is
present or absent. -/
structure StatePatch (D : Type) where
  dictionaries : Option (String → Option D)
  currentLang : Option (Option String)
  loadingLang : Option (Option String)

/-- `patchState` (later revision of src/index.ts): each present field of
`changes` overwrites the corresponding field of `__state` wholesale. -/
def patchState {D : Type} (st : IState D) (changes : StatePatch D) : IState D :=
  { dictionaries := changes.dictionaries.getD st.dictionaries,
    currentLang := changes.currentLang.getD st.currentLang,
    loadingLang := changes.loadingLang.getD st.loadingLang }

/-- JS truthiness of a `string | null | undefined` value: `null`,
`undefined` and `""` are falsy. -/
def truthyLang : Option String → Bool
  | none => false
  | some s => !s.isEmpty

/-- One field of the seeding rule
`__state[key] = initialState[key] || defaultState[key]` for the two
language fields (default `null`). -/
def seedLangField (given : Option (Option String)) : Option String :=
  match given with
  | some v => if truthyLang v then v else none
  | none => none

/-- Seeding of `__state` from an optional initial-state snapshot (later
revision of src/index.ts, `createTranslationsMiddleware`'s third
argument): each field falls back to the default when absent or falsy.
A supplied dictionaries object is always truthy. -/
def seedInitialState {D : Type} (init : StatePatch D) : IState D :=
  { dictionaries := init.dictionaries.getD (fun _ => none),
    currentLang := seedLangField init.currentLang,
    loadingLang := seedLangField init.loadingLang }

/-- The store invariant from the spec: a non-null `currentLang` has an
entry in `dictionaries`. -/
def langInvariant {D : Type} (st : IState D) : Prop :=
  ∀ l : String, st.currentLang = some l → (st.dictionaries l).isSome = true

/-- Recognizer for loader invocations among the events. -/
def isRequestEvent {D : Type} : MEvent D → Bool
  | MEvent.requestDictionary _ => true
  | _ => false

/-- Recognizer for `startSwitchCallback` invocations among the events. -/
def isStartEvent {D : Type} : MEvent D → Bool
  | MEvent.startSwitchCallback _ => true
  | _ => false

/-- Number of loader invocations performed by a middleware call. -/
def countRequests {D : Type} (evs : List (MEvent D)) : Nat :=
  evs.countP isRequestEvent

/-- Total number of loader invocations over two consecutive dispatches of
the same action (the second dispatched before any pending load of the
first has resolved). -/
def loaderCallsOfPair (options : MOptions) (st : IState Nat) (a : Action) : Nat :=
  match handle options st a with
  | Except.error _ => 0
  | Except.ok r1 =>
    match handle options r1.state a with
    | Except.error _ => 0
    | Except.ok r2 => countRequests r1.events + countRequests r2.events

/-- Concrete scenario: first dispatch of a switch to "x" on the fresh
store (default options, loader modelled with `Nat` dictionaries). -/
def c7FirstResult : HandleResult Nat :=
  (handle defaultOptions (initialState Nat)
      ⟨switchLangActionType, Payload.str "x"⟩).toOption.getD
    ⟨initialState Nat, [], []⟩

/-- Concrete scenario: second dispatch of the same switch to "x", issued
while the first load is still in flight (nothing has resolved yet). -/
def c7SecondResult : HandleResult Nat :=
  (handle defaultOptions c7FirstResult.state
      ⟨switchLangActionType, Payload.str "x"⟩).toOption.getD
    ⟨initialState Nat, [], []⟩

/-- Branch characterization: an accepted request whose hit test
`dictionaries[target] && options.cache` succeeds takes the cache-hit
branch. -/
theorem handle_cache_hit {D : Type} (options : MOptions) (st : IState D)
    (T : String) (d : D) (hacc : ¬ some T = st.currentLang)
    (hd : st.dictionaries T = some d) (hc : options.cache = true) :
    handle options st ⟨switchLangActionType, Payload.str T⟩ =
      Except.ok ⟨{ st with currentLang := some T, loadingLang := none },
        startEvents options T
          ++ (if options.endSwitchCallback then [MEvent.endSwitchCallback T d] else [])
          ++ (if options.updateCacheOnSwitch then [MEvent.requestDictionary T] else [])
          ++ [MEvent.updateComponents,
              MEvent.nextAction ⟨switchLangActionType, Payload.str T⟩],
        if options.updateCacheOnSwitch then [PendingLoad.refresh T] else []⟩ := by
  simp [handle, hacc, hd, hc]

/-- Branch characterization: an accepted request whose hit test fails
takes the cache-miss branch. -/
theorem handle_cache_miss {D : Type} (options : MOptions) (st : IState D)
    (T : String) (hacc : ¬ some T = st.currentLang)
    (hmiss : ((st.dictionaries T).isSome && options.cache) = false) :
    handle options st ⟨switchLangActionType, Payload.str T⟩ =
      Except.ok ⟨{ st with loadingLang := some T },
        startEvents options T
          ++ [MEvent.requestDictionary T, MEvent.updateComponents,
              MEvent.nextAction ⟨switchLangActionType, Payload.str T⟩],
        [PendingLoad.switchLoad T]⟩ := by
  simp [handle, hacc, hmiss]

/-- C1: when a cache-miss load for `T` resolves and `loadingLang` no longer
equals `T` (a newer request superseded it), the resolved dictionary is
still stored into `dictionaries[T]` but `currentLang` and `loadingLang`
are unchanged, `endSwitchCallback` is not invoked and subscribers are not
notified (the resolution produces no events); the switch (set
`currentLang = T`, clear `loadingLang`, fire `endSwitchCallback`, notify)
is applied exactly when `loadingLang` still equals `T` at resolution
time. -/
theorem c1_stale_resolution_suppressed {D : Type} (options : MOptions)
    (st : IState D) (T : String) (d : D) :
    (st.loadingLang ≠ some T →
      (resolveSwitchLoad options st T d).1.dictionaries T = some d ∧
      (resolveSwitchLoad options st T d).1.currentLang = st.currentLang ∧
      (resolveSwitchLoad options st T d).1.loadingLang = st.loadingLang ∧
      (resolveSwitchLoad options st T d).2 = []) ∧
    (st.loadingLang = some T →
      (resolveSwitchLoad options st T d).1.currentLang = some T ∧
      (resolveSwitchLoad options st T d).1.loadingLang = none ∧
      (resolveSwitchLoad options st T d).1.dictionaries T = some d ∧
      (resolveSwitchLoad options st T d).2 =
        (if options.endSwitchCallback then [MEvent.endSwitchCallback T d] else [])
          ++ [MEvent.updateComponents]) := by
  constructor
  · intro h
    simp [resolveSwitchLoad, setDict, h]
  · intro h
    simp [resolveSwitchLoad, setDict, h]

/-- Witness for C1 at concrete inputs: a stale resolution (nothing is
loading) and a fresh one (`loadingLang = "ru"`). -/
theorem c1_witness :
    ((resolveSwitchLoad defaultOptions (initialState Nat) "en" 7).1.dictionaries "en"
        = some 7 ∧
      (resolveSwitchLoad defaultOptions (initialState Nat) "en" 7).1.currentLang
        = (initialState Nat).currentLang ∧
      (resolveSwitchLoad defaultOptions (initialState Nat) "en" 7).1.loadingLang
        = (initialState Nat).loadingLang ∧
      (resolveSwitchLoad defaultOptions (initialState Nat) "en" 7).2 = []) ∧
    ((resolveSwitchLoad defaultOptions
        (⟨fun _ => none, none, some "ru"⟩ : IState Nat) "ru" 9).1.currentLang
        = some "ru" ∧
      (resolveSwitchLoad defaultOptions
        (⟨fun _ => none, none, some "ru"⟩ : IState Nat) "ru" 9).1.loadingLang
        = none ∧
      (resolveSwitchLoad defaultOptions
        (⟨fun _ => none, none, some "ru"⟩ : IState Nat) "ru" 9).1.dictionaries "ru"
        = some 9 ∧
      (resolveSwitchLoad defaultOptions
        (⟨fun _ => none, none, some "ru"⟩ : IState Nat) "ru" 9).2 =
        (if defaultOptions.endSwitchCallback then [MEvent.endSwitchCallback "ru" 9]
         else []) ++ [MEvent.updateComponents]) :=
  ⟨(c1_stale_resolution_suppressed defaultOptions (initialState Nat) "en" 7).1
      (by decide),
   (c1_stale_resolution_suppressed defaultOptions
      (⟨fun _ => none, none, some "ru"⟩ : IState Nat) "ru" 9).2 (by decide)⟩

/-- C2: an accepted request (target differs from `currentLang`) is a cache
hit exactly when `dictionaries[T]` exists and `options.cache` is true:
in that case the handler synchronously sets `currentLang = T` and
`loadingLang = null`, fires `endSwitchCallback` (if configured) with the
cached dictionary, and (with `updateCacheOnSwitch` false) performs no
loader call and registers no pending load; when the hit test fails the
request is handled as a cache miss instead. -/
theorem c2_cache_hit_iff {D : Type} (options : MOptions) (st : IState D)
    (T : String) (d : D) (hacc : ¬ some T = st.currentLang)
    (hupd : options.updateCacheOnSwitch = false) :
    (st.dictionaries T = some d → options.cache = true →
      handle options st ⟨switchLangActionType, Payload.str T⟩ =
        Except.ok ⟨{ st with currentLang := some T, loadingLang := none },
          startEvents options T
            ++ (if options.endSwitchCallback then [MEvent.endSwitchCallback T d]
                else [])
            ++ [MEvent.updateComponents,
                MEvent.nextAction ⟨switchLangActionType, Payload.str T⟩],
          []⟩) ∧
    (((st.dictionaries T).isSome && options.cache) = false →
      handle options st ⟨switchLangActionType, Payload.str T⟩ =
        Except.ok ⟨{ st with loadingLang := some T },
          startEvents options T
            ++ [MEvent.requestDictionary T, MEvent.updateComponents,
                MEvent.nextAction ⟨switchLangActionType, Payload.str T⟩],
          [PendingLoad.switchLoad T]⟩) := by
  constructor
  · intro hd hc
    rw [handle_cache_hit options st T d hacc hd hc]
    simp [hupd]
  · intro hmiss
    exact handle_cache_miss options st T hacc hmiss

/-- Witness for C2: a store with `en` cached and `ru` current, callbacks
configured, `updateCacheOnSwitch` off; and a miss on the same store with
caching disabled. -/
theorem c2_witness :
    (handle (⟨true, false, true, true⟩ : MOptions)
        (⟨fun l => if l = "en" then some 5 else none, some "ru", none⟩ : IState Nat)
        ⟨switchLangActionType, Payload.str "en"⟩ =
      Except.ok ⟨{ (⟨fun l => if l = "en" then some 5 else none, some "ru", none⟩ :
            IState Nat) with currentLang := some "en", loadingLang := none },
        startEvents (⟨true, false, true, true⟩ : MOptions) "en"
          ++ (if (⟨true, false, true, true⟩ : MOptions).endSwitchCallback then
                [MEvent.endSwitchCallback "en" 5]
              else [])
          ++ [MEvent.updateComponents,
              MEvent.nextAction ⟨switchLangActionType, Payload.str "en"⟩],
        []⟩) :=
  (c2_cache_hit_iff (⟨true, false, true, true⟩ : MOptions)
      (⟨fun l => if l = "en" then some 5 else none, some "ru", none⟩ : IState Nat)
      "en" 5 (by decide) rfl).1 (by decide) rfl

/-- C3: an accepted cache-miss request synchronously sets
`loadingLang = T` while leaving `currentLang` unchanged and registers the
load; and whenever the load for `T` resolves — under any options (so also
with `options.cache = false`) and in any state at resolution time (so
also when the resolution is stale) — the result is stored into
`dictionaries[T]`. -/
theorem c3_cache_miss_loads {D : Type} (options : MOptions) (st : IState D)
    (T : String) (hacc : ¬ some T = st.currentLang)
    (hmiss : ((st.dictionaries T).isSome && options.cache) = false) :
    (handle options st ⟨switchLangActionType, Payload.str T⟩ =
      Except.ok ⟨{ st with loadingLang := some T },
        startEvents options T
          ++ [MEvent.requestDictionary T, MEvent.updateComponents,
              MEvent.nextAction ⟨switchLangActionType, Payload.str T⟩],
        [PendingLoad.switchLoad T]⟩) ∧
    ({ st with loadingLang := some T } : IState D).currentLang = st.currentLang ∧
    (∀ (options2 : MOptions) (st2 : IState D) (d : D),
      (resolveSwitchLoad options2 st2 T d).1.dictionaries T = some d) := by
  refine ⟨handle_cache_miss options st T hacc hmiss, rfl, ?_⟩
  intro options2 st2 d
  by_cases h : st2.loadingLang = some T
  · simp [resolveSwitchLoad, setDict, h]
  · simp [resolveSwitchLoad, setDict, h]

/-- Witness for C3: first request on the empty store with caching
disabled. -/
theorem c3_witness :
    (handle (⟨false, false, false, false⟩ : MOptions) (initialState Nat)
        ⟨switchLangActionType, Payload.str "en"⟩ =
      Except.ok ⟨{ initialState Nat with loadingLang := some "en" },
        startEvents (⟨false, false, false, false⟩ : MOptions) "en"
          ++ [MEvent.requestDictionary "en", MEvent.updateComponents,
              MEvent.nextAction ⟨switchLangActionType, Payload.str "en"⟩],
        [PendingLoad.switchLoad "en"]⟩) ∧
    ({ initialState Nat with loadingLang := some "en" } : IState Nat).currentLang
      = (initialState Nat).currentLang ∧
    (∀ (options2 : MOptions) (st2 : IState Nat) (d : Nat),
      (resolveSwitchLoad options2 st2 "en" d).1.dictionaries "en" = some d) :=
  c3_cache_miss_loads (⟨false, false, false, false⟩ : MOptions) (initialState Nat)
    "en" (by decide) (by decide)

/-- C4: an action with the switch discriminant and a non-string payload
makes `handle` raise the descriptive error synchronously; the error
result carries no successor state, no events (no callback, no loader
call, no subscriber notification, no `next`) and no pending load — the
source throws before any mutation or effect. -/
theorem c4_nonstring_payload_throws {D : Type} (options : MOptions)
    (st : IState D) :
    handle options st ⟨switchLangActionType, Payload.nonString⟩ =
      Except.error ("switchLangActionCreator and switchLang property " ++
        "should be called with argument typeof string.") := by
  simp [handle]

/-- C5: a switch request whose payload equals `currentLang` is a pure
passthrough: the state is unchanged, the only event is forwarding the
unchanged action to `next`, and no load is registered. -/
theorem c5_noop_switch_to_current {D : Type} (options : MOptions)
    (st : IState D) (T : String) (h : st.currentLang = some T) :
    handle options st ⟨switchLangActionType, Payload.str T⟩ =
      Except.ok ⟨st, [MEvent.nextAction ⟨switchLangActionType, Payload.str T⟩],
        []⟩ := by
  simp [handle, h]

/-- Witness for C5: switching to the already-current language `en`. -/
theorem c5_witness :
    handle defaultOptions
        (⟨fun l => if l = "en" then some 5 else none, some "en", none⟩ : IState Nat)
        ⟨switchLangActionType, Payload.str "en"⟩ =
      Except.ok
        ⟨(⟨fun l => if l = "en" then some 5 else none, some "en", none⟩ : IState Nat),
          [MEvent.nextAction ⟨switchLangActionType, Payload.str "en"⟩], []⟩ :=
  c5_noop_switch_to_current defaultOptions
    (⟨fun l => if l = "en" then some 5 else none, some "en", none⟩ : IState Nat)
    "en" (by decide)

/-- Counterexample to C6 as stated: state patching does not preserve the
invariant.  `patchState({ currentLang: 'en' })` on the freshly created
(empty) store — whose invariant holds — yields a state whose
`currentLang` is `'en'` while `dictionaries` has no entry for `'en'`. -/
theorem c6_counterexample :
    (patchState (initialState Nat)
        ⟨none, some (some "en"), none⟩).currentLang = some "en" ∧
    ((patchState (initialState Nat)
        ⟨none, some (some "en"), none⟩).dictionaries "en").isSome = false ∧
    ¬ langInvariant
        (patchState (initialState Nat) ⟨none, some (some "en"), none⟩) := by
  refine ⟨rfl, rfl, fun h => ?_⟩
  exact absurd (h "en" rfl) (by decide)

/-- C6 amended: the invariant "`currentLang`, when non-null, has an entry
in `dictionaries`" holds of the initial store and is preserved by switch
handling, load resolution and background refresh (in `resolveSwitchLoad`
the entry is stored into `st1` before `currentLang` is set, and the
cache-hit branch of `handle` only sets `currentLang` after the hit test
has established the entry's presence); state patching and initial
seeding preserve it only when the supplied fields themselves respect it
— an unconstrained patch violates it (see the counterexample). -/
theorem c6_invariant_preservation {D : Type} :
    langInvariant (initialState D) ∧
    (∀ (options : MOptions) (st : IState D) (a : Action) (r : HandleResult D),
      langInvariant st → handle options st a = Except.ok r →
      langInvariant r.state) ∧
    (∀ (options : MOptions) (st : IState D) (T : String) (d : D),
      langInvariant st → langInvariant (resolveSwitchLoad options st T d).1) ∧
    (∀ (st : IState D) (T : String) (d : D),
      langInvariant st → langInvariant (resolveRefreshLoad st T d).1) ∧
    (∀ (st : IState D) (p : StatePatch D),
      langInvariant st →
      (∀ l : String, p.currentLang.getD st.currentLang = some l →
        ((p.dictionaries.getD st.dictionaries) l).isSome = true) →
      langInvariant (patchState st p)) ∧
    (∀ init : StatePatch D,
      (∀ l : String, seedLangField init.currentLang = some l →
        ((init.dictionaries.getD (fun _ => none)) l).isSome = true) →
      langInvariant (seedInitialState init)) := by
  refine ⟨?_, ?_, ?_, ?_, ?_, ?_⟩
  · intro l hl
    simp [initialState] at hl
  · intro options st a r hinv hok
    obtain ⟨t, p⟩ := a
    by_cases ht : t = switchLangActionType
    · subst ht
      cases p with
      | nonString => simp [handle] at hok
      | str T =>
        by_cases hcur : some T = st.currentLang
        · simp [handle, hcur] at hok
          rw [← hok]
          exact hinv
        · by_cases hhit : ((st.dictionaries T).isSome && options.cache) = true
          · rw [Bool.and_eq_true] at hhit
            obtain ⟨hsome, hc⟩ := hhit
            obtain ⟨d, hd⟩ := Option.isSome_iff_exists.mp hsome
            rw [handle_cache_hit options st T d hcur hd hc] at hok
            injection hok with hok
            rw [← hok]
            intro l hl
            simp at hl
            rw [← hl]
            exact hsome
          · rw [handle_cache_miss options st T hcur
              (by simpa using hhit)] at hok
            injection hok with hok
            rw [← hok]
            intro l hl
            exact hinv l hl
    · simp [handle, ht] at hok
      rw [← hok]
      exact hinv
  · intro options st T d hinv
    by_cases h : st.loadingLang = some T
    · intro l hl
      simp [resolveSwitchLoad, h] at hl
      subst hl
      simp [resolveSwitchLoad, h, setDict]
    · intro l hl
      simp [resolveSwitchLoad, h] at hl
      simp [resolveSwitchLoad, h, setDict]
      by_cases hlT : l = T
      · simp [hlT]
      · simp [hlT]
        exact hinv l hl
  · intro st T d hinv
    intro l hl
    simp only [resolveRefreshLoad] at hl ⊢
    simp only [setDict]
    by_cases hlT : l = T
    · simp [hlT]
    · simp [hlT]
      exact hinv l hl
  · intro st p hinv hresp
    intro l hl
    exact hresp l hl
  · intro init hresp
    intro l hl
    exact hresp l hl

/-- Witness for C6 (amended): the preservation components applied at
concrete inputs — a fresh load resolution on the empty store and a patch
that only touches `loadingLang`. -/
theorem c6_witness :
    langInvariant (initialState Nat) ∧
    langInvariant (resolveSwitchLoad defaultOptions (initialState Nat) "en" 3).1 ∧
    langInvariant
      (patchState (initialState Nat) ⟨none, none, some (some "en")⟩) :=
  ⟨(c6_invariant_preservation (D := Nat)).1,
   (c6_invariant_preservation (D := Nat)).2.2.1 defaultOptions
     (initialState Nat) "en" 3 (c6_invariant_preservation (D := Nat)).1,
   (c6_invariant_preservation (D := Nat)).2.2.2.2.1 (initialState Nat)
     ⟨none, none, some (some "en")⟩ (c6_invariant_preservation (D := Nat)).1
     (fun l hl => absurd hl (by simp [initialState]))⟩

/-- Counterexample to C7 as stated: dispatch switch("x") twice on the
fresh store, the second dispatch while the first load is still in flight
("x" is loading, is not current, and its dictionary has not been stored).
The loader is invoked twice over the pair, not once — the cache-miss
branch calls `requestFunc` unconditionally on every accepted request. -/
theorem c7_counterexample :
    c7FirstResult.state.loadingLang = some "x" ∧
    c7FirstResult.state.currentLang ≠ some "x" ∧
    c7FirstResult.pending = [PendingLoad.switchLoad "x"] ∧
    countRequests c7FirstResult.events = 1 ∧
    countRequests c7SecondResult.events = 1 ∧
    loaderCallsOfPair defaultOptions (initialState Nat)
      ⟨switchLangActionType, Payload.str "x"⟩ = 2 ∧
    loaderCallsOfPair defaultOptions (initialState Nat)
      ⟨switchLangActionType, Payload.str "x"⟩ ≠ 1 := by
  decide

/-- C7 amended: the coordinator does not de-duplicate loader calls for
concurrent same-language requests — each accepted cache-miss request
invokes the loader, so the overlapping pair produces two loader calls.
What is de-duplicated is the store state and the switch application: a
second request for `X` issued while `X`'s load is in flight leaves the
store exactly unchanged (`loadingLang` is already `X`), and the
`loadingLang` re-check at resolution time applies the switch at most
once per resolution. -/
theorem c7_second_request_repeats_load {D : Type} (options : MOptions)
    (st : IState D) (T : String) (hinflight : st.loadingLang = some T)
    (hnotcur : ¬ some T = st.currentLang)
    (hnotstored : st.dictionaries T = none) :
    handle options st ⟨switchLangActionType, Payload.str T⟩ =
      Except.ok ⟨st,
        startEvents options T
          ++ [MEvent.requestDictionary T, MEvent.updateComponents,
              MEvent.nextAction ⟨switchLangActionType, Payload.str T⟩],
        [PendingLoad.switchLoad T]⟩ := by
  obtain ⟨dicts, cur, load⟩ := st
  dsimp only at hinflight hnotcur hnotstored
  subst hinflight
  exact handle_cache_miss options ⟨dicts, cur, some T⟩ T hnotcur
    (by simp [hnotstored])

/-- Witness for C7 (amended): the second dispatch of the concrete
overlapping scenario. -/
theorem c7_witness :
    handle defaultOptions c7FirstResult.state
        ⟨switchLangActionType, Payload.str "x"⟩ =
      Except.ok ⟨c7FirstResult.state,
        startEvents defaultOptions "x"
          ++ [MEvent.requestDictionary "x", MEvent.updateComponents,
              MEvent.nextAction ⟨switchLangActionType, Payload.str "x"⟩],
        [PendingLoad.switchLoad "x"]⟩ :=
  c7_second_request_repeats_load defaultOptions c7FirstResult.state "x"
    (by decide) (by decide) (by decide)

/-- C8: on every accepted request with `startSwitchCallback` configured,
the callback fires synchronously, first among the call's events — hence
exactly once and before any loader invocation — and no further
`startSwitchCallback` event occurs in the call. -/
theorem c8_start_callback_once_first {D : Type} (options : MOptions)
    (st : IState D) (T : String)
    (hstart : options.startSwitchCallback = true)
    (hacc : ¬ some T = st.currentLang) :
    ∀ r : HandleResult D,
      handle options st ⟨switchLangActionType, Payload.str T⟩ = Except.ok r →
      r.events.countP isStartEvent = 1 ∧
      r.events.head? = some (MEvent.startSwitchCallback T) := by
  intro r hok
  by_cases hhit : ((st.dictionaries T).isSome && options.cache) = true
  · rw [Bool.and_eq_true] at hhit
    obtain ⟨hsome, hc⟩ := hhit
    obtain ⟨d, hd⟩ := Option.isSome_iff_exists.mp hsome
    rw [handle_cache_hit options st T d hacc hd hc] at hok
    injection hok with hok
    rw [← hok]
    by_cases he : options.endSwitchCallback <;>
      by_cases hu : options.updateCacheOnSwitch <;>
      simp [startEvents, hstart, he, hu, isStartEvent]
  · rw [handle_cache_miss options st T hacc (by simpa using hhit)] at hok
    injection hok with hok
    rw [← hok]
    simp [startEvents, hstart, isStartEvent]

/-- Witness for C8: the first dispatch on the empty store with the start
callback configured. -/
theorem c8_witness :
    (⟨{ initialState Nat with loadingLang := some "en" },
        [MEvent.startSwitchCallback "en", MEvent.requestDictionary "en",
         MEvent.updateComponents,
         MEvent.nextAction ⟨switchLangActionType, Payload.str "en"⟩],
        [PendingLoad.switchLoad "en"]⟩ : HandleResult Nat).events.countP
        isStartEvent = 1 ∧
      (⟨{ initialState Nat with loadingLang := some "en" },
        [MEvent.startSwitchCallback "en", MEvent.requestDictionary "en",
         MEvent.updateComponents,
         MEvent.nextAction ⟨switchLangActionType, Payload.str "en"⟩],
        [PendingLoad.switchLoad "en"]⟩ : HandleResult Nat).events.head? =
        some (MEvent.startSwitchCallback "en") :=
  c8_start_callback_once_first (⟨true, false, true, false⟩ : MOptions)
    (initialState Nat) "en" rfl (by decide)
    ⟨{ initialState Nat with loadingLang := some "en" },
      [MEvent.startSwitchCallback "en", MEvent.requestDictionary "en",
       MEvent.updateComponents,
       MEvent.nextAction ⟨switchLangActionType, Payload.str "en"⟩],
      [PendingLoad.switchLoad "en"]⟩ rfl

/-- C9: a cache hit with `updateCacheOnSwitch` applies the switch
synchronously — `currentLang = T`, `loadingLang = null`,
`endSwitchCallback` fired with the cached dictionary — while the refresh
load is still pending; and whenever the refresh resolves (any state at
resolution time), it only overwrites `dictionaries[T]` and notifies
subscribers: `currentLang` and `loadingLang` are untouched, other
entries are untouched, and no `endSwitchCallback` event occurs. -/
theorem c9_background_refresh {D : Type} (options : MOptions) (st : IState D)
    (T : String) (d : D) (hacc : ¬ some T = st.currentLang)
    (hd : st.dictionaries T = some d) (hc : options.cache = true)
    (hupd : options.updateCacheOnSwitch = true) :
    (handle options st ⟨switchLangActionType, Payload.str T⟩ =
      Except.ok ⟨{ st with currentLang := some T, loadingLang := none },
        startEvents options T
          ++ (if options.endSwitchCallback then [MEvent.endSwitchCallback T d]
              else [])
          ++ [MEvent.requestDictionary T, MEvent.updateComponents,
              MEvent.nextAction ⟨switchLangActionType, Payload.str T⟩],
        [PendingLoad.refresh T]⟩) ∧
    (∀ (st2 : IState D) (d2 : D),
      (resolveRefreshLoad st2 T d2).1.currentLang = st2.currentLang ∧
      (resolveRefreshLoad st2 T d2).1.loadingLang = st2.loadingLang ∧
      (resolveRefreshLoad st2 T d2).1.dictionaries T = some d2 ∧
      (∀ l : String, l ≠ T →
        (resolveRefreshLoad st2 T d2).1.dictionaries l = st2.dictionaries l) ∧
      (resolveRefreshLoad st2 T d2).2 = [MEvent.updateComponents]) := by
  constructor
  · rw [handle_cache_hit options st T d hacc hd hc]
    simp [hupd]
  · intro st2 d2
    refine ⟨rfl, rfl, ?_, ?_, rfl⟩
    · simp [resolveRefreshLoad, setDict]
    · intro l hl
      simp [resolveRefreshLoad, setDict, hl]

/-- Witness for C9: `en` cached (value 5), `ru` current, all options and
callbacks on; refresh later resolves to 8 in an arbitrary concrete
state. -/
theorem c9_witness :
    (handle (⟨true, true, true, true⟩ : MOptions)
        (⟨fun l => if l = "en" then some 5 else none, some "ru", none⟩ :
          IState Nat)
        ⟨switchLangActionType, Payload.str "en"⟩ =
      Except.ok ⟨{ (⟨fun l => if l = "en" then some 5 else none, some "ru",
            none⟩ : IState Nat) with
          currentLang := some "en", loadingLang := none },
        startEvents (⟨true, true, true, true⟩ : MOptions) "en"
          ++ (if (⟨true, true, true, true⟩ : MOptions).endSwitchCallback then
                [MEvent.endSwitchCallback "en" 5]
              else [])
          ++ [MEvent.requestDictionary "en", MEvent.updateComponents,
              MEvent.nextAction ⟨switchLangActionType, Payload.str "en"⟩],
        [PendingLoad.refresh "en"]⟩) ∧
    (∀ (st2 : IState Nat) (d2 : Nat),
      (resolveRefreshLoad st2 "en" d2).1.currentLang = st2.currentLang ∧
      (resolveRefreshLoad st2 "en" d2).1.loadingLang = st2.loadingLang ∧
      (resolveRefreshLoad st2 "en" d2).1.dictionaries "en" = some d2 ∧
      (∀ l : String, l ≠ "en" →
        (resolveRefreshLoad st2 "en" d2).1.dictionaries l =
          st2.dictionaries l) ∧
      (resolveRefreshLoad st2 "en" d2).2 = [MEvent.updateComponents]) :=
  c9_background_refresh (⟨true, true, true, true⟩ : MOptions)
    (⟨fun l => if l = "en" then some 5 else none, some "ru", none⟩ : IState Nat)
    "en" 5 (by decide) rfl rfl rfl

/-- C10: the empty string is a valid payload — only non-string payloads
throw.  On a store where `""` is not current and has no cached entry,
the request is accepted as an ordinary cache-miss switch: the start
callback fires, `loadingLang` is set to `""`, and the loader is invoked
with the empty string. -/
theorem c10_empty_string_accepted {D : Type} (options : MOptions)
    (st : IState D) (hacc : ¬ some "" = st.currentLang)
    (hstart : options.startSwitchCallback = true)
    (hnone : st.dictionaries "" = none) :
    handle options st ⟨switchLangActionType, Payload.str ""⟩ =
      Except.ok ⟨{ st with loadingLang := some "" },
        MEvent.startSwitchCallback "" ::
          [MEvent.requestDictionary "", MEvent.updateComponents,
           MEvent.nextAction ⟨switchLangActionType, Payload.str ""⟩],
        [PendingLoad.switchLoad ""]⟩ := by
  rw [handle_cache_miss options st "" hacc (by simp [hnone])]
  simp [startEvents, hstart]

/-- Witness for C10: dispatching switch("") on the fresh store with the
start callback configured. -/
theorem c10_witness :
    handle (⟨true, false, true, false⟩ : MOptions) (initialState Nat)
        ⟨switchLangActionType, Payload.str ""⟩ =
      Except.ok ⟨{ initialState Nat with loadingLang := some "" },
        MEvent.startSwitchCallback "" ::
          [MEvent.requestDictionary "", MEvent.updateComponents,
           MEvent.nextAction ⟨switchLangActionType, Payload.str ""⟩],
        [PendingLoad.switchLoad ""]⟩ :=
  c10_empty_string_accepted (⟨true, false, true, false⟩ : MOptions)
    (initialState Nat) (by decide) rfl rfl

end ReduxTranslations
